import Mathlib

/-!
Verification of the cross-process window/webview control protocol of the
webview repository, against its natural-language specification.

The development shallowly embeds the protocol subsystem:

* `src/ipc.rs` — the wire vocabulary (`IpcRequest`, `IpcResponse`,
  `IpcMessage`), the JSON codecs, the process-wide request-id counter, and
  the client's blocking reply-correlation loop (`IpcClient::send_request`).
* `src/bin/eventloop.rs` — the worker process: the window/webview registry
  (`WindowManager`), the dispatch function (`process_ipc_request`), and the
  per-iteration connection loop of `main` (read a frame, dispatch, reply on
  the same stream, handle native close events, exit-flag handling).

Machine integers are modelled as `Nat` with explicit `% 2^64` where the Rust
code can overflow (the `AtomicU64` request-id counter).  `HashMap` is
modelled as an association list with insert/erase/lookup mirroring the
observable map semantics.  Calls into the out-of-scope GUI toolkit bindings
(tao window construction and wry webview construction/navigation) are
modelled by an explicit collaborator record (`Toolkit`) of fallible
functions, as in the specification's collaborator interface.
-/

namespace WebviewIpc

/-- JSON values, modelling `serde_json::Value` as it is used by the wire
protocol.  Numbers are restricted to `Nat`: every number the protocol itself
writes (`request_id : u64`, `window_id : u32`, byte lengths) is an unsigned
integer. -/
inductive Json where
  | null
  | bool (b : Bool)
  | num (n : Nat)
  | str (s : String)
  | arr (elems : List Json)
  | obj (fields : List (String × Json))

/-- Requests sent from the host process to the worker process
(`IpcRequest` in `src/ipc.rs` and `src/bin/eventloop.rs`). -/
inductive IpcRequest where
  | CreateBrowserWindow (window_id : Nat) (options : Json) (is_child : Bool)
  | CloseWindow (window_id : Nat)
  | CreateWebview (window_id : Nat) (options : Json)
  | EvaluateScript (window_id : Nat) (script : String)
  | LoadUrl (window_id : Nat) (url : String)
  | LoadHtml (window_id : Nat) (html : String)
  | SetWindowVisible (window_id : Nat) (visible : Bool)
  | SetWindowTitle (window_id : Nat) (title : String)
  | Exit
  | Ping

/-- Responses sent from the worker process to the host process
(`IpcResponse` in `src/ipc.rs` and `src/bin/eventloop.rs`). -/
inductive IpcResponse where
  | Success (request_id : Nat) (data : Option Json)
  | Error (request_id : Nat) (message : String)
  | ApplicationEvent (event_type : String) (window_id : Option Nat)
  | Pong

/-- Envelope wrapping a payload with a request id (`IpcMessage<T>`). -/
structure IpcMessage (T : Type) where
  request_id : Nat
  payload : T

/-- An opaque tao window object.  The only property of the native window the
protocol layer reads is its native identity `window.id()`
(`tao::window::WindowId`), modelled as `tao_id`. -/
structure Window where
  tao_id : Nat
deriving DecidableEq

/-- An opaque wry webview object; the registry stores and retrieves it. -/
structure WebView where
  wv_id : Nat
deriving DecidableEq

/-- Association-list model of `HashMap` lookup: first binding of the key. -/
def lookupKey (k : Nat) : List (Nat × α) → Option α
  | [] => none
  | (k', v) :: rest => if k' = k then some v else lookupKey k rest

/-- Association-list model of `HashMap::remove`'s effect on the map. -/
def eraseKey (k : Nat) (m : List (Nat × α)) : List (Nat × α) :=
  m.filter (fun p => p.1 != k)

/-- Association-list model of `HashMap::insert`: the new binding shadows and
replaces any previous binding of the key. -/
def insertKey (k : Nat) (v : α) (m : List (Nat × α)) : List (Nat × α) :=
  (k, v) :: eraseKey k m

/-- The worker-side registry (`WindowManager` in `src/bin/eventloop.rs`):
`window_id -> Window`, `tao window id -> window_id`, and
`window_id -> WebView`. -/
structure WindowManager where
  windows : List (Nat × Window)
  tao_to_window_id : List (Nat × Nat)
  webviews : List (Nat × WebView)

/-- `WindowManager::new()`. -/
def WindowManager.new : WindowManager :=
  { windows := [], tao_to_window_id := [], webviews := [] }

/-- `WindowManager::add_window`: register the window under the host-supplied
id and record the tao-id mapping. -/
def WindowManager.add_window (wm : WindowManager) (window_id : Nat) (window : Window) :
    WindowManager :=
  { wm with
    windows := insertKey window_id window wm.windows
    tao_to_window_id := insertKey window.tao_id window_id wm.tao_to_window_id }

/-- `WindowManager::remove_window`: remove the window binding and, if a
window was actually registered, every tao-id mapping whose value is this
window id.  The webviews map is not touched. -/
def WindowManager.remove_window (wm : WindowManager) (window_id : Nat) : WindowManager :=
  match lookupKey window_id wm.windows with
  | some _ =>
      { wm with
        windows := eraseKey window_id wm.windows
        tao_to_window_id := wm.tao_to_window_id.filter (fun p => p.2 != window_id) }
  | none => wm

/-- `WindowManager::get_window`. -/
def WindowManager.get_window (wm : WindowManager) (window_id : Nat) : Option Window :=
  lookupKey window_id wm.windows

/-- `WindowManager::get_webview`. -/
def WindowManager.get_webview (wm : WindowManager) (window_id : Nat) : Option WebView :=
  lookupKey window_id wm.webviews

/-- `WindowManager::get_window_id`: map a native tao window id back to the
host-assigned handle. -/
def WindowManager.get_window_id (wm : WindowManager) (taoId : Nat) : Option Nat :=
  lookupKey taoId wm.tao_to_window_id

/-- A window builder produced by `WindowManager::create_window_options`.
The extraction of the individual attributes (`title`, `width`, ...) feeds
the out-of-scope toolkit binding; the protocol layer only passes the builder
through to `Toolkit.build_window`, so the builder carries the raw options. -/
structure WindowBuilder where
  options : Json

/-- `WindowManager::create_window_options`: builds the toolkit window
builder from the loosely-typed options.  In the source this function always
returns `Ok((window_builder, window_id))`, echoing the host-supplied id. -/
def WindowManager.create_window_options (window_id : Nat) (options : Json) :
    Except String (WindowBuilder × Nat) :=
  .ok (⟨options⟩, window_id)

/-- The out-of-scope GUI toolkit collaborators (tao window construction, wry
webview construction and navigation), as fallible functions.  Dispatch is
verified for every behaviour of these collaborators. -/
structure Toolkit where
  build_window : WindowBuilder → Except String Window
  build_webview : Window → Json → Except String WebView
  evaluate_script : WebView → String → Except String Unit
  load_url : WebView → String → Except String Unit
  load_html : WebView → String → Except String Unit

/-- A toolkit whose operations all succeed; used to instantiate theorems on
concrete inputs. -/
def okToolkit : Toolkit :=
  { build_window := fun _ => .ok ⟨0⟩
    build_webview := fun w _ => .ok ⟨w.tao_id⟩
    evaluate_script := fun _ _ => .ok ()
    load_url := fun _ _ => .ok ()
    load_html := fun _ _ => .ok () }

/-- `WindowManager::create_webview`: look the window up (error naming the
handle if absent), build the webview through the toolkit, and register it
under the same id. -/
def WindowManager.create_webview (tk : Toolkit) (wm : WindowManager)
    (window_id : Nat) (options : Json) : Except String WindowManager :=
  match lookupKey window_id wm.windows with
  | none => .error ("Window " ++ toString window_id ++ " not found")
  | some window =>
      match tk.build_webview window options with
      | .error e => .error ("Failed to create webview: " ++ e)
      | .ok webview => .ok { wm with webviews := insertKey window_id webview wm.webviews }

/-- Result of `process_ipc_request` (`IpcRequestResult` in
`src/bin/eventloop.rs`). -/
inductive IpcRequestResult where
  | Success (resp : IpcResponse)
  | CreateWindow (builder : WindowBuilder) (window_id : Nat)
  | Error (msg : String)

/-- Whether a dispatch result is the `Error` constructor. -/
def IpcRequestResult.isErrorResult : IpcRequestResult → Bool
  | .Error _ => true
  | _ => false

/-- `process_ipc_request` from `src/bin/eventloop.rs`: synchronous dispatch
of one decoded request against the local registry.  Returns the result and
the updated registry (the Rust function mutates `window_manager` in place). -/
def process_ipc_request (tk : Toolkit) (request : IpcRequest) (wm : WindowManager) :
    IpcRequestResult × WindowManager :=
  match request with
  | .CreateBrowserWindow window_id options _is_child =>
      match WindowManager.create_window_options window_id options with
      | .ok (window_builder, wid) => (.CreateWindow window_builder wid, wm)
      | .error e => (.Error e, wm)
  | .CloseWindow window_id =>
      (.Success (.Success 0 (some (.obj [("closed", .bool true)]))),
       wm.remove_window window_id)
  | .CreateWebview window_id options =>
      match WindowManager.create_webview tk wm window_id options with
      | .ok wm' =>
          (.Success (.Success 0 (some (.obj
            [("window_id", .num window_id), ("webview_created", .bool true)]))), wm')
      | .error e => (.Error e, wm)
  | .EvaluateScript window_id script =>
      match wm.get_webview window_id with
      | some webview =>
          match tk.evaluate_script webview script with
          | .ok _ =>
              (.Success (.Success 0 (some (.obj
                [("evaluated", .bool true),
                 ("script_length", .num script.utf8ByteSize)]))), wm)
          | .error e => (.Error ("Failed to evaluate script: " ++ e), wm)
      | none => (.Error ("Webview " ++ toString window_id ++ " not found"), wm)
  | .LoadUrl window_id url =>
      match wm.get_webview window_id with
      | some webview =>
          match tk.load_url webview url with
          | .ok _ =>
              (.Success (.Success 0 (some (.obj
                [("loaded", .bool true), ("url", .str url)]))), wm)
          | .error e => (.Error ("Failed to load URL: " ++ e), wm)
      | none => (.Error ("Webview " ++ toString window_id ++ " not found"), wm)
  | .LoadHtml window_id html =>
      match wm.get_webview window_id with
      | some webview =>
          match tk.load_html webview html with
          | .ok _ =>
              (.Success (.Success 0 (some (.obj
                [("loaded", .bool true),
                 ("html_length", .num html.utf8ByteSize)]))), wm)
          | .error e => (.Error ("Failed to load HTML: " ++ e), wm)
      | none => (.Error ("Webview " ++ toString window_id ++ " not found"), wm)
  | .SetWindowVisible window_id visible =>
      match wm.get_window window_id with
      | some _window =>
          (.Success (.Success 0 (some (.obj [("visible", .bool visible)]))), wm)
      | none => (.Error ("Window " ++ toString window_id ++ " not found"), wm)
  | .SetWindowTitle window_id title =>
      match wm.get_window window_id with
      | some _window =>
          (.Success (.Success 0 (some (.obj [("title", .str title)]))), wm)
      | none => (.Error ("Window " ++ toString window_id ++ " not found"), wm)
  | .Exit =>
      (.Success (.Success 0 (some (.obj [("exiting", .bool true)]))), wm)
  | .Ping => (.Success .Pong, wm)

/-! ### The worker's per-message handling and per-iteration connection loop
(`main` in `src/bin/eventloop.rs`, lines 418-543). -/

/-- Handling of one decoded request inside `main`'s read loop (lines
446-502): dispatch via `process_ipc_request`, turn the result into the reply
envelope, and compute `should_exit_flag`.  In the source every arm of the
`match` yields `false` for `should_exit_flag` — including the `Exit` arm,
which reaches this code as `IpcRequestResult::Success` — so the returned
flag is the literal value the code computes.  On `CreateWindow` the window
is built through the toolkit and registered (`add_window`) on success.
Returns (updated registry, reply envelope, should_exit_flag). -/
def handleMessage (tk : Toolkit) (wm : WindowManager) (msg : IpcMessage IpcRequest) :
    WindowManager × IpcMessage IpcResponse × Bool :=
  match process_ipc_request tk msg.payload wm with
  | (.Success resp, wm1) => (wm1, ⟨msg.request_id, resp⟩, false)
  | (.Error e, wm1) => (wm1, ⟨msg.request_id, .Error msg.request_id e⟩, false)
  | (.CreateWindow window_builder window_id, wm1) =>
      match tk.build_window window_builder with
      | .ok window =>
          (wm1.add_window window_id window,
           ⟨msg.request_id, .Success 0 (some (.obj
             [("window_id", .num window_id), ("success", .bool true)]))⟩,
           false)
      | .error e =>
          (wm1, ⟨msg.request_id, .Error msg.request_id ("Failed to create window: " ++ e)⟩,
           false)

/-- Outcome of the non-blocking `stream.read` on one connection during one
loop iteration: end-of-stream (`Ok(0)`), a read of bytes that either decode
to a request envelope or are silently dropped, `WouldBlock`, or an I/O
error. -/
inductive ReadResult where
  | closed
  | frame (msg : Option (IpcMessage IpcRequest))
  | wouldBlock
  | ioError

/-- Result of one iteration of the per-connection read/dispatch/reply loop:
the updated registry, the replies written (tagged with the index of the
connection they are written to), the indices of connections to drop, and
the accumulated `should_exit_flag`. -/
structure IterationResult where
  wm : WindowManager
  writes : List (Nat × IpcMessage IpcResponse)
  removed : List Nat
  exitFlag : Bool

/-- The `for (idx, stream) in streams.iter_mut().enumerate()` loop of `main`
(lines 440-510): each connection's read outcome is processed in order; a
decoded frame is dispatched against the registry threaded through the loop
and its reply envelope is written to that same stream (`stream.write_all`
inside the loop body); closed or erroring connections are marked for
removal. -/
def processStreams (tk : Toolkit) : Nat → WindowManager → List ReadResult → IterationResult
  | _, wm, [] => ⟨wm, [], [], false⟩
  | idx, wm, r :: rest =>
    match r with
    | .closed =>
        let res := processStreams tk (idx + 1) wm rest
        { res with removed := idx :: res.removed }
    | .wouldBlock => processStreams tk (idx + 1) wm rest
    | .ioError =>
        let res := processStreams tk (idx + 1) wm rest
        { res with removed := idx :: res.removed }
    | .frame none => processStreams tk (idx + 1) wm rest
    | .frame (some msg) =>
        let h := handleMessage tk wm msg
        let res := processStreams tk (idx + 1) h.1 rest
        { res with writes := (idx, h.2.1) :: res.writes
                   exitFlag := h.2.2 || res.exitFlag }

/-- The `WindowEvent::CloseRequested` handler of `main` (lines 518-542): map
the native tao id to the public handle; if it is registered, remove it from
the registry and broadcast a `WindowCloseRequested` application event. -/
def handleCloseRequested (wm : WindowManager) (taoId : Nat) :
    WindowManager × Option IpcResponse :=
  match wm.get_window_id taoId with
  | some window_id_num =>
      (wm.remove_window window_id_num,
       some (.ApplicationEvent "WindowCloseRequested" (some window_id_num)))
  | none => (wm, none)

/-- The `ControlFlow` the loop closure leaves in `control_flow`. -/
inductive ControlFlow where
  | Poll
  | Exit
deriving DecidableEq

/-- State carried across iterations of the worker's event loop: the registry
and the `should_exit` atomic flag. -/
structure LoopState where
  wm : WindowManager
  should_exit : Bool

/-- One invocation of the event-loop closure (lines 418-510, connection
handling only): if `should_exit` is set the closure sets
`ControlFlow::Exit` and returns; otherwise it processes every connection's
read outcome and stores `true` into `should_exit` when a processed request
set `should_exit_flag`. -/
def eventLoopStep (tk : Toolkit) (st : LoopState) (reads : List ReadResult) :
    LoopState × ControlFlow :=
  if st.should_exit then (st, .Exit)
  else
    let res := processStreams tk 0 st.wm reads
    ({ wm := res.wm, should_exit := st.should_exit || res.exitFlag }, .Poll)

/-- Iterated event loop over a schedule of per-iteration read outcomes;
returns the final state and whether any iteration set `ControlFlow::Exit`. -/
def runLoop (tk : Toolkit) : LoopState → List (List ReadResult) → LoopState × Bool
  | st, [] => (st, false)
  | st, reads :: rest =>
      let step := eventLoopStep tk st reads
      let tail := runLoop tk step.1 rest
      (tail.1, (step.2 == ControlFlow.Exit) || tail.2)

/-! ### Host-side client (`src/ipc.rs`): request-id generation and the
blocking reply-correlation loop of `IpcClient::send_request`. -/

/-- Modulus of the `AtomicU64` request-id counter. -/
def U64_WRAP : Nat := 2 ^ 64

/-- Initial value of `REQUEST_ID_COUNTER` (`AtomicU64::new(1)`). -/
def REQUEST_ID_START : Nat := 1

/-- `generate_request_id`: `fetch_add(1, SeqCst)` on the process-wide
counter — returns the current value and stores the wrapped successor. -/
def generate_request_id (counter : Nat) : Nat × Nat :=
  (counter, (counter + 1) % U64_WRAP)

/-- The two client primitives that allocate a request id.  `send_request`
(blocking) and `send_request_async` (fire-and-forget) both begin with
`let request_id = generate_request_id();` on the same process-wide
counter. -/
inductive ClientOp where
  | sendRequest
  | sendRequestAsync
deriving DecidableEq

/-- Run a sequence of client calls against the shared counter; returns the
final counter and the request ids allocated, in call order.  Both kinds of
call draw their id from the same `generate_request_id`. -/
def runClientOps : Nat → List ClientOp → Nat × List Nat
  | counter, [] => (counter, [])
  | counter, _op :: ops =>
      let g := generate_request_id counter
      let rest := runClientOps g.2 ops
      (rest.1, g.1 :: rest.2)

/-- The channel-draining behaviour of `send_request`'s wait loop restricted
to the received-responses queue: `try_recv` pops the front pair; a pair
whose id matches the awaited id is returned together with what is left of
the queue; a pair whose id does not match is dropped and the loop
continues.  Returns `none` when the queue is exhausted without a match
(the real loop then sleeps and polls again). -/
def recvLoop (request_id : Nat) :
    List (Nat × IpcResponse) → Option (IpcResponse × List (Nat × IpcResponse))
  | [] => none
  | (resp_id, response) :: rest =>
      if resp_id = request_id then some (response, rest)
      else recvLoop request_id rest

/-- One `try_recv` observation of `send_request`'s wait loop: a received
pair, an empty channel (with the elapsed milliseconds at that instant), or
a disconnected channel. -/
inductive Poll where
  | ok (resp_id : Nat) (response : IpcResponse)
  | empty (elapsed_ms : Nat)
  | disconnected

/-- The error kinds `send_request` can fail with: `io::ErrorKind::TimedOut`
("Timeout waiting for response") and `io::ErrorKind::ConnectionReset`
("IPC channel disconnected"). -/
inductive IpcErrorKind where
  | TimedOut
  | ConnectionReset
deriving DecidableEq

/-- The fixed reply budget of `send_request`: `Duration::from_secs(10)`, in
milliseconds. -/
def TIMEOUT_MS : Nat := 10000

/-- The wait loop of `IpcClient::send_request` (lines 150-173 of
`src/ipc.rs`) over a trace of `try_recv` observations: a matching pair
returns the response; a non-matching pair is dropped; an empty observation
returns a `TimedOut` error when the elapsed time exceeds the budget and
otherwise sleeps and continues; a disconnected channel returns a
`ConnectionReset` error immediately.  `none` means the finite trace ended
before the loop returned. -/
def waitLoop (request_id : Nat) : List Poll → Option (Except IpcErrorKind IpcResponse)
  | [] => none
  | .ok resp_id response :: rest =>
      if resp_id = request_id then some (.ok response)
      else waitLoop request_id rest
  | .empty elapsed_ms :: rest =>
      if TIMEOUT_MS < elapsed_ms then some (.error .TimedOut)
      else waitLoop request_id rest
  | .disconnected :: _ => some (.error .ConnectionReset)

/-- A `try_recv` observation that keeps `send_request`'s wait loop running:
a response for a different request id, or an empty channel seen within the
timeout budget. -/
def pollKeepsWaiting (request_id : Nat) : Poll → Bool
  | .ok resp_id _ => resp_id != request_id
  | .empty elapsed_ms => decide (elapsed_ms ≤ TIMEOUT_MS)
  | .disconnected => false

/-! ### Wire encoding (`serde_json` derived codecs used by
`serialize_request` / `deserialize_request` / `serialize_response` /
`deserialize_response` in `src/ipc.rs`).

Serde's externally-tagged representation of the derived enums: a struct
variant becomes a one-field object `{"VariantName": {fields...}}`, a unit
variant becomes the string `"VariantName"`.  `Option<T>` maps `None` to
`null` and `Some(v)` to the encoding of `v`; on the way back a JSON `null`
always becomes `None` — so `Some(Value::Null)` collapses to `None`. -/

/-- Encoding of `Option<serde_json::Value>` (the `data` field of
`IpcResponse::Success`). -/
def encodeOptValue : Option Json → Json
  | none => .null
  | some v => v

/-- Decoding of `Option<serde_json::Value>`: `null` decodes to `None`, every
other value to `Some` of itself; this never fails. -/
def decodeOptValue : Json → Option Json
  | .null => none
  | .bool b => some (.bool b)
  | .num n => some (.num n)
  | .str s => some (.str s)
  | .arr elems => some (.arr elems)
  | .obj fields => some (.obj fields)

/-- Encoding of `Option<u32>` (the `window_id` field of
`ApplicationEvent`). -/
def encodeOptNat : Option Nat → Json
  | none => .null
  | some n => .num n

/-- Decoding of `Option<u32>`: `null` is `None`, a number is `Some`, and
anything else is a deserialization failure. -/
def decodeOptNat : Json → Option (Option Nat)
  | .null => some none
  | .num n => some (some n)
  | _ => none

/-- Serde encoding of `IpcRequest`. -/
def encodeRequest : IpcRequest → Json
  | .CreateBrowserWindow window_id options is_child =>
      .obj [("CreateBrowserWindow", .obj
        [("window_id", .num window_id), ("options", options),
         ("is_child", .bool is_child)])]
  | .CloseWindow window_id =>
      .obj [("CloseWindow", .obj [("window_id", .num window_id)])]
  | .CreateWebview window_id options =>
      .obj [("CreateWebview", .obj
        [("window_id", .num window_id), ("options", options)])]
  | .EvaluateScript window_id script =>
      .obj [("EvaluateScript", .obj
        [("window_id", .num window_id), ("script", .str script)])]
  | .LoadUrl window_id url =>
      .obj [("LoadUrl", .obj [("window_id", .num window_id), ("url", .str url)])]
  | .LoadHtml window_id html =>
      .obj [("LoadHtml", .obj [("window_id", .num window_id), ("html", .str html)])]
  | .SetWindowVisible window_id visible =>
      .obj [("SetWindowVisible", .obj
        [("window_id", .num window_id), ("visible", .bool visible)])]
  | .SetWindowTitle window_id title =>
      .obj [("SetWindowTitle", .obj
        [("window_id", .num window_id), ("title", .str title)])]
  | .Exit => .str "Exit"
  | .Ping => .str "Ping"

/-- Serde decoding of `IpcRequest` (accepting the canonical field layout the
encoder emits). -/
def decodeRequest : Json → Option IpcRequest
  | .str "Exit" => some .Exit
  | .str "Ping" => some .Ping
  | .obj [("CreateBrowserWindow", .obj
      [("window_id", .num window_id), ("options", options),
       ("is_child", .bool is_child)])] =>
      some (.CreateBrowserWindow window_id options is_child)
  | .obj [("CloseWindow", .obj [("window_id", .num window_id)])] =>
      some (.CloseWindow window_id)
  | .obj [("CreateWebview", .obj
      [("window_id", .num window_id), ("options", options)])] =>
      some (.CreateWebview window_id options)
  | .obj [("EvaluateScript", .obj
      [("window_id", .num window_id), ("script", .str script)])] =>
      some (.EvaluateScript window_id script)
  | .obj [("LoadUrl", .obj [("window_id", .num window_id), ("url", .str url)])] =>
      some (.LoadUrl window_id url)
  | .obj [("LoadHtml", .obj [("window_id", .num window_id), ("html", .str html)])] =>
      some (.LoadHtml window_id html)
  | .obj [("SetWindowVisible", .obj
      [("window_id", .num window_id), ("visible", .bool visible)])] =>
      some (.SetWindowVisible window_id visible)
  | .obj [("SetWindowTitle", .obj
      [("window_id", .num window_id), ("title", .str title)])] =>
      some (.SetWindowTitle window_id title)
  | _ => none

/-- Serde encoding of `IpcResponse`. -/
def encodeResponse : IpcResponse → Json
  | .Success request_id data =>
      .obj [("Success", .obj
        [("request_id", .num request_id), ("data", encodeOptValue data)])]
  | .Error request_id message =>
      .obj [("Error", .obj
        [("request_id", .num request_id), ("message", .str message)])]
  | .ApplicationEvent event_type window_id =>
      .obj [("ApplicationEvent", .obj
        [("event_type", .str event_type), ("window_id", encodeOptNat window_id)])]
  | .Pong => .str "Pong"

/-- Serde decoding of `IpcResponse`. -/
def decodeResponse : Json → Option IpcResponse
  | .str "Pong" => some .Pong
  | .obj [("Success", .obj [("request_id", .num request_id), ("data", d)])] =>
      some (.Success request_id (decodeOptValue d))
  | .obj [("Error", .obj [("request_id", .num request_id), ("message", .str m)])] =>
      some (.Error request_id m)
  | .obj [("ApplicationEvent", .obj
      [("event_type", .str event_type), ("window_id", w)])] =>
      (decodeOptNat w).map (fun window_id => .ApplicationEvent event_type window_id)
  | _ => none

/-- `serialize_request`: encode the request envelope
`IpcMessage<IpcRequest>`. -/
def serialize_request (message : IpcMessage IpcRequest) : Json :=
  .obj [("request_id", .num message.request_id),
        ("payload", encodeRequest message.payload)]

/-- `deserialize_request`: decode a request envelope. -/
def deserialize_request : Json → Option (IpcMessage IpcRequest)
  | .obj [("request_id", .num request_id), ("payload", p)] =>
      (decodeRequest p).map (fun request => ⟨request_id, request⟩)
  | _ => none

/-- `serialize_response`: encode the response envelope
`IpcMessage<IpcResponse>`. -/
def serialize_response (request_id : Nat) (response : IpcResponse) : Json :=
  .obj [("request_id", .num request_id), ("payload", encodeResponse response)]

/-- `deserialize_response` (`src/ipc.rs` lines 358-372): first try to parse
the bytes as a bare `IpcResponse` (an unsolicited event), pairing it with
request id 0; otherwise parse an `IpcMessage<IpcResponse>` envelope and
return its id with its payload. -/
def deserialize_response (j : Json) : Option (Nat × IpcResponse) :=
  match decodeResponse j with
  | some response => some (0, response)
  | none =>
      match j with
      | .obj [("request_id", .num request_id), ("payload", p)] =>
          (decodeResponse p).map (fun response => (request_id, response))
      | _ => none

/-- A response survives the wire round trip exactly when its `data` field is
not `Some(Value::Null)` (which JSON `null` cannot distinguish from
`None`). -/
def respRoundtrippable : IpcResponse → Bool
  | .Success _ (some .null) => false
  | _ => true

/-! ### Helper lemmas about the association-list map model. -/

theorem lookupKey_eraseKey_self (k : Nat) (m : List (Nat × α)) :
    lookupKey k (eraseKey k m) = none := by
  induction m with
  | nil => rfl
  | cons p rest ih =>
    by_cases h : p.1 = k
    · simpa [eraseKey, List.filter_cons, h] using ih
    · simpa [eraseKey, List.filter_cons, lookupKey, h] using ih

theorem lookupKey_eraseKey_ne {k' k : Nat} (m : List (Nat × α)) (h : k' ≠ k) :
    lookupKey k' (eraseKey k m) = lookupKey k' m := by
  induction m with
  | nil => rfl
  | cons p rest ih =>
    obtain ⟨a, b⟩ := p
    simp only [eraseKey, List.filter_cons] at ih ⊢
    by_cases hak : a = k
    · rw [if_neg (by simp [hak])]
      simp only [lookupKey]
      rw [if_neg (by omega : ¬a = k')]
      exact ih
    · rw [if_pos (by simp [hak])]
      simp only [lookupKey]
      by_cases hak' : a = k'
      · rw [if_pos hak', if_pos hak']
      · rw [if_neg hak', if_neg hak']
        exact ih

theorem lookupKey_insertKey_self (k : Nat) (v : α) (m : List (Nat × α)) :
    lookupKey k (insertKey k v m) = some v := by
  simp [insertKey, lookupKey]

theorem lookupKey_mem {k : Nat} {v : α} {m : List (Nat × α)} :
    lookupKey k m = some v → (k, v) ∈ m := by
  induction m with
  | nil => intro h; simp [lookupKey] at h
  | cons p rest ih =>
    intro h
    obtain ⟨a, b⟩ := p
    by_cases hak : a = k
    · simp only [lookupKey] at h
      rw [if_pos hak] at h
      subst hak
      obtain rfl : b = v := by injection h
      exact List.mem_cons_self ..
    · simp only [lookupKey] at h
      rw [if_neg hak] at h
      exact List.mem_cons_of_mem _ (ih h)

/-! ### Helper lemmas about the worker loop's exit flag. -/

theorem handleMessage_exitFlag (tk : Toolkit) (wm : WindowManager)
    (msg : IpcMessage IpcRequest) : (handleMessage tk wm msg).2.2 = false := by
  unfold handleMessage
  split <;> first | rfl | (split <;> rfl)

theorem handleMessage_request_id (tk : Toolkit) (wm : WindowManager)
    (msg : IpcMessage IpcRequest) :
    (handleMessage tk wm msg).2.1.request_id = msg.request_id := by
  unfold handleMessage
  split <;> first | rfl | (split <;> rfl)

theorem processStreams_exitFlag (tk : Toolkit) (reads : List ReadResult) :
    ∀ idx wm, (processStreams tk idx wm reads).exitFlag = false := by
  induction reads with
  | nil => intro idx wm; rfl
  | cons r rest ih =>
    intro idx wm
    cases r with
    | closed => simpa [processStreams] using ih (idx + 1) wm
    | wouldBlock => simpa [processStreams] using ih (idx + 1) wm
    | ioError => simpa [processStreams] using ih (idx + 1) wm
    | frame m =>
      cases m with
      | none => simpa [processStreams] using ih (idx + 1) wm
      | some msg =>
        simp [processStreams, handleMessage_exitFlag, ih]

theorem runLoop_no_exit (tk : Toolkit) (sched : List (List ReadResult)) :
    ∀ wm, (runLoop tk ⟨wm, false⟩ sched).2 = false := by
  induction sched with
  | nil => intro wm; rfl
  | cons reads rest ih =>
    intro wm
    simp [runLoop, eventLoopStep, processStreams_exitFlag, ih]

/-! ### Claim theorems. -/

/-- C9: for every registry state (the empty registry and registries with
unknown handles included) and every toolkit behaviour, dispatching a `Ping`
request yields the `Pong` response and leaves the registry unchanged. -/
theorem ping_always_pong (tk : Toolkit) (wm : WindowManager) :
    process_ipc_request tk IpcRequest.Ping wm
      = (IpcRequestResult.Success IpcResponse.Pong, wm) := rfl

/-- C2: processing an `Exit` request replies Success (`{"exiting": true}`),
but — contrary to the claim and to the worker's own comment "Si se solicitó
salir, actualizar el flag" — no arm of `main`'s result `match` ever computes
`should_exit_flag = true`, so the exit flag is never stored and the loop
never transitions to `ControlFlow::Exit`, on any schedule of incoming
frames. -/
theorem exit_request_never_sets_exit_flag (tk : Toolkit) (wm : WindowManager)
    (rid : Nat) (msg : IpcMessage IpcRequest) (sched : List (List ReadResult)) :
    (process_ipc_request tk IpcRequest.Exit wm).1
        = IpcRequestResult.Success
            (IpcResponse.Success 0 (some (Json.obj [("exiting", Json.bool true)])))
    ∧ (handleMessage tk wm ⟨rid, IpcRequest.Exit⟩).2.1
        = ⟨rid, IpcResponse.Success 0 (some (Json.obj [("exiting", Json.bool true)]))⟩
    ∧ (handleMessage tk wm msg).2.2 = false
    ∧ (runLoop tk ⟨wm, false⟩ sched).2 = false := by
  exact ⟨rfl, rfl, handleMessage_exitFlag tk wm msg, runLoop_no_exit tk sched wm⟩

/-- C1 counterexample: awaiting id 2 on a channel holding first a response
for id 1 and then one for id 2, `send_request`'s drain loop returns the
matching response but leaves an empty queue — the non-matching pair
`(1, Pong)` has been consumed and is not available to a concurrent caller
awaiting id 1, contrary to the claim that it is requeued/left available. -/
theorem sendRequest_nonmatching_consumed_counterexample :
    recvLoop 2 [(1, IpcResponse.Pong), (2, IpcResponse.Success 2 none)]
        = some (IpcResponse.Success 2 none, [])
    ∧ (1, IpcResponse.Pong) ∉ ([] : List (Nat × IpcResponse)) := by
  exact ⟨rfl, by simp⟩

/-- C1 (amended): `send_request` returns exactly the response whose id
equals the id allocated for the call — the first matching pair in the
channel — but every non-matching pair received before it is consumed and
discarded: the queue left behind is exactly the part of the queue after the
matching pair, with the non-matching prefix gone. -/
theorem sendRequest_returns_matching_and_drops_earlier (request_id : Nat)
    (pre rest : List (Nat × IpcResponse)) (response : IpcResponse)
    (hpre : ∀ p ∈ pre, p.1 ≠ request_id) :
    recvLoop request_id (pre ++ (request_id, response) :: rest)
      = some (response, rest) := by
  induction pre with
  | nil =>
    simp [recvLoop]
  | cons p pre' ih =>
    obtain ⟨i, r⟩ := p
    have hne : i ≠ request_id := hpre (i, r) (List.mem_cons_self ..)
    simp only [List.cons_append, recvLoop]
    rw [if_neg hne]
    exact ih (fun q hq => hpre q (List.mem_cons_of_mem _ hq))

/-- C1 witness: instantiates the amended theorem on a concrete channel
queue with a non-matching pair before the matching one. -/
theorem sendRequest_returns_matching_witness :
    (∀ p ∈ [((1 : Nat), IpcResponse.Pong)], p.1 ≠ 2)
    ∧ recvLoop 2 ([(1, IpcResponse.Pong)] ++ (2, IpcResponse.Error 2 "boom") :: [])
        = some (IpcResponse.Error 2 "boom", []) := by
  refine ⟨?_, sendRequest_returns_matching_and_drops_earlier 2
    [(1, IpcResponse.Pong)] [] (IpcResponse.Error 2 "boom") ?_⟩ <;>
  · intro p hp
    simp only [List.mem_singleton] at hp
    subst hp
    decide

/-- C6: the wait loop of `send_request` fails immediately with the
`ConnectionReset` ("IPC channel disconnected") error the moment `try_recv`
reports a disconnected channel, whatever follows and with no elapsed-time
condition; it fails with the distinct `TimedOut` error on the first empty
poll past the fixed 10-second budget, provided every earlier observation
kept it waiting (a non-matching response or an empty poll within budget). -/
theorem sendRequest_timeout_and_disconnect (request_id elapsed_ms : Nat)
    (pre rest rest' : List Poll)
    (hpre : ∀ p ∈ pre, pollKeepsWaiting request_id p = true)
    (helapsed : TIMEOUT_MS < elapsed_ms) :
    waitLoop request_id (Poll.disconnected :: rest')
        = some (Except.error IpcErrorKind.ConnectionReset)
    ∧ waitLoop request_id (pre ++ Poll.empty elapsed_ms :: rest)
        = some (Except.error IpcErrorKind.TimedOut)
    ∧ IpcErrorKind.TimedOut ≠ IpcErrorKind.ConnectionReset := by
  refine ⟨rfl, ?_, by decide⟩
  induction pre with
  | nil =>
    simp only [List.nil_append, waitLoop]
    rw [if_pos helapsed]
  | cons p pre' ih =>
    have hp := hpre p (List.mem_cons_self ..)
    have ih' := ih (fun q hq => hpre q (List.mem_cons_of_mem _ hq))
    cases p with
    | ok resp_id response =>
      have hne : resp_id ≠ request_id := by
        simpa [pollKeepsWaiting] using hp
      simp only [List.cons_append, waitLoop]
      rw [if_neg hne]
      exact ih'
    | empty t =>
      have hle : ¬TIMEOUT_MS < t := by
        simp only [pollKeepsWaiting, decide_eq_true_eq] at hp
        omega
      simp only [List.cons_append, waitLoop]
      rw [if_neg hle]
      exact ih'
    | disconnected =>
      simp [pollKeepsWaiting] at hp

/-- C6 witness: a trace with one non-matching response and one in-budget
empty poll, followed by an empty poll past the budget, times out; the
disconnect and distinctness conjuncts are instantiated alongside. -/
theorem sendRequest_timeout_witness :
    ((∀ p ∈ [Poll.ok 7 IpcResponse.Pong, Poll.empty 500], pollKeepsWaiting 3 p = true)
      ∧ TIMEOUT_MS < 10001)
    ∧ waitLoop 3 [Poll.disconnected]
        = some (Except.error IpcErrorKind.ConnectionReset)
    ∧ waitLoop 3 ([Poll.ok 7 IpcResponse.Pong, Poll.empty 500] ++ Poll.empty 10001 :: [])
        = some (Except.error IpcErrorKind.TimedOut) := by
  have hpre : ∀ p ∈ [Poll.ok 7 IpcResponse.Pong, Poll.empty 500],
      pollKeepsWaiting 3 p = true := by
    intro p hp
    simp only [List.mem_cons, List.mem_singleton] at hp
    rcases hp with rfl | rfl | h
    · decide
    · decide
    · simp at h
  have h := sendRequest_timeout_and_disconnect 3 10001
    [Poll.ok 7 IpcResponse.Pong, Poll.empty 500] [] [] hpre (by decide)
  exact ⟨⟨hpre, by decide⟩, h.1, h.2.1⟩

/-- Unfolding of one client call: the id handed out is the current counter
value and the counter advances to its wrapped successor. -/
theorem runClientOps_cons (c : Nat) (op : ClientOp) (ops : List ClientOp) :
    (runClientOps c (op :: ops)).2
      = c :: (runClientOps ((c + 1) % U64_WRAP) ops).2 := rfl

/-- Request ids allocated by a run of client calls starting from counter
`c` are `c, c+1, ...` while the 64-bit counter does not wrap. -/
theorem runClientOps_ids (ops : List ClientOp) :
    ∀ counter, counter + ops.length ≤ U64_WRAP →
      (runClientOps counter ops).2 = List.range' counter ops.length := by
  induction ops with
  | nil => intro c _; rfl
  | cons op ops ih =>
    intro c hc
    cases ops with
    | nil => simp [runClientOps, generate_request_id, List.range']
    | cons op2 ops2 =>
      have hlt : c + 1 < U64_WRAP := by
        simp only [List.length_cons] at hc
        omega
      rw [runClientOps_cons, Nat.mod_eq_of_lt hlt,
          ih (c + 1) (by simp only [List.length_cons] at hc ⊢; omega)]
      simp [List.range'_succ]

/-- C8: starting from the process-wide counter's initial value, every run of
client calls — blocking `send_request` and fire-and-forget
`send_request_async` in any interleaving, both drawing from the same
`generate_request_id` counter — allocates the ids `1, 2, ..., n` in order:
the first id is 1, the ids are strictly increasing, and they are pairwise
distinct, as long as the 64-bit counter does not wrap. -/
theorem request_ids_start_at_one_strictly_increasing (ops : List ClientOp)
    (h : ops.length + 1 ≤ U64_WRAP) :
    (runClientOps REQUEST_ID_START ops).2 = List.range' 1 ops.length
    ∧ List.Pairwise (· < ·) (runClientOps REQUEST_ID_START ops).2
    ∧ ((runClientOps REQUEST_ID_START ops).2).Nodup
    ∧ (0 < ops.length → ((runClientOps REQUEST_ID_START ops).2).head? = some 1) := by
  have hids := runClientOps_ids ops REQUEST_ID_START (by
    simp only [REQUEST_ID_START]; omega)
  refine ⟨hids, ?_, ?_, ?_⟩
  · rw [hids]; exact List.pairwise_lt_range' 1 ops.length
  · rw [hids]; exact List.nodup_range' 1 ops.length
  · intro hlen
    rw [hids]
    cases hl : ops.length with
    | zero => omega
    | succ n => rw [List.range'_succ]; rfl

/-- C8 witness: three calls, mixing the blocking and fire-and-forget
primitives, allocate ids `[1, 2, 3]`. -/
theorem request_ids_witness :
    ([ClientOp.sendRequest, ClientOp.sendRequestAsync,
        ClientOp.sendRequest].length + 1 ≤ U64_WRAP)
    ∧ (runClientOps REQUEST_ID_START [ClientOp.sendRequest,
        ClientOp.sendRequestAsync, ClientOp.sendRequest]).2 = List.range' 1 3 := by
  refine ⟨by decide, ?_⟩
  exact (request_ids_start_at_one_strictly_increasing
    [ClientOp.sendRequest, ClientOp.sendRequestAsync, ClientOp.sendRequest]
    (by decide)).1

/-- C3 counterexample: `CloseWindow` with the unregistered handle 99 on the
empty registry does not yield an Error response — it is a silent no-op that
replies `Success {"closed": true}`, refuting the claim for the close-window
operation. -/
theorem closeWindow_unknown_handle_counterexample :
    (process_ipc_request okToolkit (IpcRequest.CloseWindow 99)
        WindowManager.new).1.isErrorResult = false
    ∧ (process_ipc_request okToolkit (IpcRequest.CloseWindow 99) WindowManager.new).1
        = IpcRequestResult.Success (IpcResponse.Success 0
            (some (Json.obj [("closed", Json.bool true)]))) := ⟨rfl, rfl⟩

/-- C3 (amended): for every registry in which the handle is not registered,
the webview-creation and window/webview operations other than close-window
(`create-webview`, `evaluate-script`, `load-url`, `load-html`,
`set-visible`, `set-title`) dispatch to an Error response whose message
names the handle, while `close-window` is a silent no-op that replies
Success and leaves the registry unchanged; no operation panics (dispatch is
a total function). -/
theorem unknown_handle_ops_error_naming_handle (tk : Toolkit) (wm : WindowManager)
    (handle : Nat) (options : Json) (script url html title : String) (visible : Bool)
    (hwin : lookupKey handle wm.windows = none)
    (hwv : lookupKey handle wm.webviews = none) :
    (process_ipc_request tk (IpcRequest.CreateWebview handle options) wm).1
        = IpcRequestResult.Error ("Window " ++ toString handle ++ " not found")
    ∧ (process_ipc_request tk (IpcRequest.EvaluateScript handle script) wm).1
        = IpcRequestResult.Error ("Webview " ++ toString handle ++ " not found")
    ∧ (process_ipc_request tk (IpcRequest.LoadUrl handle url) wm).1
        = IpcRequestResult.Error ("Webview " ++ toString handle ++ " not found")
    ∧ (process_ipc_request tk (IpcRequest.LoadHtml handle html) wm).1
        = IpcRequestResult.Error ("Webview " ++ toString handle ++ " not found")
    ∧ (process_ipc_request tk (IpcRequest.SetWindowVisible handle visible) wm).1
        = IpcRequestResult.Error ("Window " ++ toString handle ++ " not found")
    ∧ (process_ipc_request tk (IpcRequest.SetWindowTitle handle title) wm).1
        = IpcRequestResult.Error ("Window " ++ toString handle ++ " not found")
    ∧ process_ipc_request tk (IpcRequest.CloseWindow handle) wm
        = (IpcRequestResult.Success (IpcResponse.Success 0
            (some (Json.obj [("closed", Json.bool true)]))), wm) := by
  refine ⟨?_, ?_, ?_, ?_, ?_, ?_, ?_⟩ <;>
    simp [process_ipc_request, WindowManager.create_webview,
      WindowManager.get_webview, WindowManager.get_window,
      WindowManager.remove_window, hwin, hwv]

/-- C3 witness: evaluating a script against the unregistered handle 99 on
the empty registry yields the Error response naming 99. -/
theorem unknown_handle_ops_witness :
    (lookupKey 99 WindowManager.new.windows = none
      ∧ lookupKey 99 WindowManager.new.webviews = none)
    ∧ (process_ipc_request okToolkit (IpcRequest.EvaluateScript 99 "1+1")
        WindowManager.new).1
        = IpcRequestResult.Error ("Webview " ++ toString 99 ++ " not found") := by
  exact ⟨⟨rfl, rfl⟩,
    (unknown_handle_ops_error_naming_handle okToolkit WindowManager.new 99
      Json.null "1+1" "u" "h" "t" true rfl rfl).2.1⟩

/-- C7: from any registry, after `create-window` registers handle `hnd`
(window `w`) and `set-visible(hnd, false)` is dispatched, a
native-originated close (`WindowEvent::CloseRequested`) resolving to a
different registered handle `hnd2` removes only `hnd2`'s entries: `hnd`'s
window binding and its tao-id mapping survive unchanged. -/
theorem native_close_preserves_other_entries (tk : Toolkit)
    (wm wm1 wm2 wm3 : WindowManager) (w : Window) (hnd hnd2 t2 : Nat)
    (hwm1 : wm1 = wm.add_window hnd w)
    (hwm2 : wm2 = (process_ipc_request tk (IpcRequest.SetWindowVisible hnd false) wm1).2)
    (hid : wm2.get_window_id t2 = some hnd2)
    (hne : hnd2 ≠ hnd)
    (hwm3 : wm3 = (handleCloseRequested wm2 t2).1) :
    lookupKey hnd wm3.windows = some w
    ∧ lookupKey w.tao_id wm3.tao_to_window_id = some hnd := by
  have hvis : wm2 = wm1 := by
    rw [hwm2]
    cases hw : wm1.get_window hnd <;> simp [process_ipc_request, hw]
  subst hvis
  have h3 : wm3 = wm2.remove_window hnd2 := by
    rw [hwm3]
    simp only [handleCloseRequested, hid]
  cases hlw : lookupKey hnd2 wm2.windows with
  | none =>
    have h4 : wm3 = wm2 := by
      rw [h3]
      simp [WindowManager.remove_window, hlw]
    subst h4
    rw [hwm1]
    exact ⟨lookupKey_insertKey_self .., lookupKey_insertKey_self ..⟩
  | some wfound =>
    subst h3
    constructor
    · simp only [WindowManager.remove_window, hlw]
      rw [lookupKey_eraseKey_ne _ (by omega : hnd ≠ hnd2)]
      rw [hwm1]
      exact lookupKey_insertKey_self ..
    · simp only [WindowManager.remove_window, hlw]
      rw [hwm1]
      simp only [WindowManager.add_window, insertKey]
      rw [List.filter_cons, if_pos (by simp only [bne_iff_ne, ne_eq]; omega)]
      simp [lookupKey]

/-- C7 witness: registry holding handle 2 (tao id 20); create handle 1
(tao id 10), hide it, then natively close tao id 20 (handle 2): handle 1's
window entry survives. -/
theorem native_close_preserves_witness :
    ((2 : Nat) ≠ 1
      ∧ ((process_ipc_request okToolkit (IpcRequest.SetWindowVisible 1 false)
          ((WindowManager.mk [(2, ⟨20⟩)] [(20, 2)] []).add_window 1
            ⟨10⟩)).2).get_window_id 20 = some 2)
    ∧ lookupKey 1 ((handleCloseRequested
        ((process_ipc_request okToolkit (IpcRequest.SetWindowVisible 1 false)
          ((WindowManager.mk [(2, ⟨20⟩)] [(20, 2)] []).add_window 1 ⟨10⟩)).2)
        20).1).windows = some ⟨10⟩ := by
  refine ⟨⟨by decide, rfl⟩, ?_⟩
  exact (native_close_preserves_other_entries okToolkit
    (WindowManager.mk [(2, ⟨20⟩)] [(20, 2)] []) _ _ _ ⟨10⟩ 1 2 20
    rfl rfl rfl (by decide) rfl).1

/-- C10: processing `CloseWindow{hnd}` removes `hnd`'s window binding and
every tao-id mapping to it but leaves the webviews map untouched, so a
subsequent `EvaluateScript`/`LoadUrl`/`LoadHtml` for `hnd` behaves exactly
as before the close — it still finds the registered webview instead of
producing the "not found" error. -/
theorem closeWindow_leaves_webviews (tk : Toolkit) (wm wm1 : WindowManager)
    (hnd : Nat) (wv : WebView) (w0 : Window) (script url html : String)
    (hwv : lookupKey hnd wm.webviews = some wv)
    (hwin : lookupKey hnd wm.windows = some w0)
    (hwm1 : wm1 = (process_ipc_request tk (IpcRequest.CloseWindow hnd) wm).2) :
    wm1.webviews = wm.webviews
    ∧ lookupKey hnd wm1.webviews = some wv
    ∧ lookupKey hnd wm1.windows = none
    ∧ (∀ t, lookupKey t wm1.tao_to_window_id ≠ some hnd)
    ∧ (process_ipc_request tk (IpcRequest.EvaluateScript hnd script) wm1).1
        = (process_ipc_request tk (IpcRequest.EvaluateScript hnd script) wm).1
    ∧ (process_ipc_request tk (IpcRequest.LoadUrl hnd url) wm1).1
        = (process_ipc_request tk (IpcRequest.LoadUrl hnd url) wm).1
    ∧ (process_ipc_request tk (IpcRequest.LoadHtml hnd html) wm1).1
        = (process_ipc_request tk (IpcRequest.LoadHtml hnd html) wm).1 := by
  have h1 : wm1 = WindowManager.mk (eraseKey hnd wm.windows)
      (wm.tao_to_window_id.filter (fun p => p.2 != hnd)) wm.webviews := by
    rw [hwm1]
    simp [process_ipc_request, WindowManager.remove_window, hwin]
  subst h1
  refine ⟨rfl, hwv, lookupKey_eraseKey_self hnd wm.windows, ?_, ?_, ?_, ?_⟩
  · intro t hcontra
    have hmem := lookupKey_mem hcontra
    have hf := List.mem_filter.mp hmem
    simp at hf
  · simp only [process_ipc_request, WindowManager.get_webview, hwv]
    cases tk.evaluate_script wv script <;> rfl
  · simp only [process_ipc_request, WindowManager.get_webview, hwv]
    cases tk.load_url wv url <;> rfl
  · simp only [process_ipc_request, WindowManager.get_webview, hwv]
    cases tk.load_html wv html <;> rfl

/-- C10 witness: a registry with window 1 (tao id 10) and its webview;
closing window 1 leaves the webviews map unchanged. -/
theorem closeWindow_leaves_webviews_witness :
    (lookupKey 1 (WindowManager.mk [(1, ⟨10⟩)] [(10, 1)] [(1, ⟨77⟩)]).webviews
        = some ⟨77⟩
      ∧ lookupKey 1 (WindowManager.mk [(1, ⟨10⟩)] [(10, 1)] [(1, ⟨77⟩)]).windows
        = some ⟨10⟩)
    ∧ (process_ipc_request okToolkit (IpcRequest.CloseWindow 1)
        (WindowManager.mk [(1, ⟨10⟩)] [(10, 1)] [(1, ⟨77⟩)])).2.webviews
        = (WindowManager.mk [(1, ⟨10⟩)] [(10, 1)] [(1, ⟨77⟩)]).webviews := by
  refine ⟨⟨rfl, rfl⟩, ?_⟩
  exact (closeWindow_leaves_webviews okToolkit
    (WindowManager.mk [(1, ⟨10⟩)] [(10, 1)] [(1, ⟨77⟩)]) _ 1 ⟨77⟩ ⟨10⟩
    "s" "u" "h" rfl rfl rfl).1

/-- Soundness half of the same-connection property, generalized over the
running enumeration index: every reply the iteration writes is tagged with
an index at or past the start index, that index carried a decodable frame,
and the reply's envelope id is that frame's request id. -/
theorem processStreams_writes_sound (tk : Toolkit) (reads : List ReadResult) :
    ∀ idx wm i reply, (i, reply) ∈ (processStreams tk idx wm reads).writes →
      idx ≤ i ∧ ∃ msg, reads.get? (i - idx) = some (ReadResult.frame (some msg))
        ∧ reply.request_id = msg.request_id := by
  induction reads with
  | nil =>
    intro idx wm i reply h
    simp [processStreams] at h
  | cons r rest ih =>
    intro idx wm i reply h
    have step : ∀ wm', (i, reply) ∈ (processStreams tk (idx + 1) wm' rest).writes →
        idx ≤ i ∧ ∃ msg, (r :: rest).get? (i - idx)
          = some (ReadResult.frame (some msg))
          ∧ reply.request_id = msg.request_id := by
      intro wm' hm
      obtain ⟨hle, msg, hget, hrid⟩ := ih (idx + 1) wm' i reply hm
      refine ⟨by omega, msg, ?_, hrid⟩
      rw [show i - idx = (i - (idx + 1)) + 1 by omega]
      simpa using hget
    cases r with
    | closed => exact step wm (by simpa [processStreams] using h)
    | wouldBlock => exact step wm (by simpa [processStreams] using h)
    | ioError => exact step wm (by simpa [processStreams] using h)
    | frame m =>
      cases m with
      | none => exact step wm (by simpa [processStreams] using h)
      | some msg =>
        simp only [processStreams, List.mem_cons] at h
        rcases h with heq | hm
        · obtain ⟨rfl, rfl⟩ : i = idx ∧ reply = (handleMessage tk wm msg).2.1 := by
            exact ⟨congrArg Prod.fst heq, congrArg Prod.snd heq⟩
          refine ⟨Nat.le_refl _, msg, ?_, handleMessage_request_id ..⟩
          simp
        · exact step (handleMessage tk wm msg).1 hm

/-- Completeness half of the same-connection property: every decodable
frame read on connection `i` produces a reply written to connection `i`
whose envelope id is the frame's request id. -/
theorem processStreams_writes_complete (tk : Toolkit) (reads : List ReadResult) :
    ∀ idx wm i msg, reads.get? i = some (ReadResult.frame (some msg)) →
      ∃ reply, (idx + i, reply) ∈ (processStreams tk idx wm reads).writes
        ∧ reply.request_id = msg.request_id := by
  induction reads with
  | nil =>
    intro idx wm i msg h
    simp at h
  | cons r rest ih =>
    intro idx wm i msg h
    cases i with
    | zero =>
      obtain rfl : r = ReadResult.frame (some msg) := by
        simpa using h
      refine ⟨(handleMessage tk wm msg).2.1, ?_, handleMessage_request_id ..⟩
      simp only [processStreams, Nat.add_zero]
      exact List.mem_cons_self ..
    | succ k =>
      simp only [List.get?_cons_succ] at h
      have harith : idx + (k + 1) = (idx + 1) + k := by omega
      cases r with
      | closed =>
        obtain ⟨reply, hm, hrid⟩ := ih (idx + 1) wm k msg h
        exact ⟨reply, by rw [harith]; simpa [processStreams] using hm, hrid⟩
      | wouldBlock =>
        obtain ⟨reply, hm, hrid⟩ := ih (idx + 1) wm k msg h
        exact ⟨reply, by rw [harith]; simpa [processStreams] using hm, hrid⟩
      | ioError =>
        obtain ⟨reply, hm, hrid⟩ := ih (idx + 1) wm k msg h
        exact ⟨reply, by rw [harith]; simpa [processStreams] using hm, hrid⟩
      | frame m =>
        cases m with
        | none =>
          obtain ⟨reply, hm, hrid⟩ := ih (idx + 1) wm k msg h
          exact ⟨reply, by rw [harith]; simpa [processStreams] using hm, hrid⟩
        | some msg0 =>
          obtain ⟨reply, hm, hrid⟩ := ih (idx + 1) (handleMessage tk wm msg0).1 k msg h
          refine ⟨reply, ?_, hrid⟩
          rw [harith]
          simp only [processStreams]
          exact List.mem_cons_of_mem _ hm

/-- C4: in one iteration of the worker's per-connection loop, a reply is
written only to the connection whose read produced the request it answers —
every written pair `(i, reply)` answers a frame read on connection `i`
(same request id), and conversely every decodable frame read on connection
`i` is answered by a reply written to connection `i`. -/
theorem reply_written_to_same_connection (tk : Toolkit) (wm : WindowManager)
    (reads : List ReadResult) :
    (∀ i reply, (i, reply) ∈ (processStreams tk 0 wm reads).writes →
      ∃ req, reads.get? i = some (ReadResult.frame (some req))
        ∧ reply.request_id = req.request_id)
    ∧ (∀ i msg, reads.get? i = some (ReadResult.frame (some msg)) →
      ∃ reply, (i, reply) ∈ (processStreams tk 0 wm reads).writes
        ∧ reply.request_id = msg.request_id) := by
  constructor
  · intro i reply h
    obtain ⟨-, msg, hget, hrid⟩ := processStreams_writes_sound tk reads 0 wm i reply h
    exact ⟨msg, by simpa using hget, hrid⟩
  · intro i msg h
    obtain ⟨reply, hm, hrid⟩ := processStreams_writes_complete tk reads 0 wm i msg h
    exact ⟨reply, by simpa using hm, hrid⟩

/-- C4 witness: a single connection delivering a `Ping` with request id 5 is
answered by a `Pong` envelope with id 5 written to that same connection. -/
theorem reply_written_to_same_connection_witness :
    ((0, (⟨5, IpcResponse.Pong⟩ : IpcMessage IpcResponse)) ∈
        (processStreams okToolkit 0 WindowManager.new
          [ReadResult.frame (some ⟨5, IpcRequest.Ping⟩)]).writes)
    ∧ (∃ req, [ReadResult.frame (some ⟨5, IpcRequest.Ping⟩)].get? 0
          = some (ReadResult.frame (some req))
        ∧ (⟨5, IpcResponse.Pong⟩ : IpcMessage IpcResponse).request_id
            = req.request_id) := by
  have hmem : (0, (⟨5, IpcResponse.Pong⟩ : IpcMessage IpcResponse)) ∈
      (processStreams okToolkit 0 WindowManager.new
        [ReadResult.frame (some ⟨5, IpcRequest.Ping⟩)]).writes := by
    show (0, (⟨5, IpcResponse.Pong⟩ : IpcMessage IpcResponse)) ∈
      [(0, (⟨5, IpcResponse.Pong⟩ : IpcMessage IpcResponse))]
    exact List.mem_singleton.mpr rfl
  exact ⟨hmem, (reply_written_to_same_connection okToolkit WindowManager.new
    [ReadResult.frame (some ⟨5, IpcRequest.Ping⟩)]).1 0 ⟨5, IpcResponse.Pong⟩ hmem⟩

/-- C5 counterexample: the response `Success {request_id: 7, data:
Some(Value::Null)}` serializes its data field to JSON `null`, which
deserializes back as `None` — the round trip yields `Success {request_id:
7, data: None}`, not a value equal to the original. -/
theorem wire_roundtrip_counterexample :
    deserialize_response (serialize_response 7
        (IpcResponse.Success 7 (some Json.null)))
      = some (7, IpcResponse.Success 7 none)
    ∧ deserialize_response (serialize_response 7
        (IpcResponse.Success 7 (some Json.null)))
      ≠ some (7, IpcResponse.Success 7 (some Json.null)) := by
  refine ⟨rfl, ?_⟩
  intro hcontra
  rw [show deserialize_response (serialize_response 7
      (IpcResponse.Success 7 (some Json.null)))
      = some (7, IpcResponse.Success 7 none) from rfl] at hcontra
  simp at hcontra

/-- C5 (amended): serializing then deserializing is the identity on every
request envelope, and on every response except a `Success` whose data field
is `Some(Value::Null)` (whose round trip collapses the data to `None`,
since JSON `null` encodes both); the envelope's `request_id` is preserved
in both directions. -/
theorem wire_roundtrip (m : IpcMessage IpcRequest) (rid : Nat)
    (resp : IpcResponse) (hresp : respRoundtrippable resp = true) :
    deserialize_request (serialize_request m) = some m
    ∧ deserialize_response (serialize_response rid resp) = some (rid, resp) := by
  constructor
  · obtain ⟨mrid, payload⟩ := m
    cases payload <;> rfl
  · cases resp with
    | Success r d =>
      cases d with
      | none => rfl
      | some v =>
        cases v with
        | null => simp [respRoundtrippable] at hresp
        | bool b => rfl
        | num n => rfl
        | str s => rfl
        | arr elems => rfl
        | obj fields => rfl
    | Error r message => rfl
    | ApplicationEvent event_type window_id => cases window_id <;> rfl
    | Pong => rfl

/-- C5 witness: the `Ping` request envelope and the `Pong` response
round-trip through the wire encoding. -/
theorem wire_roundtrip_witness :
    respRoundtrippable IpcResponse.Pong = true
    ∧ deserialize_request (serialize_request ⟨1, IpcRequest.Ping⟩)
        = some ⟨1, IpcRequest.Ping⟩
    ∧ deserialize_response (serialize_response 2 IpcResponse.Pong)
        = some (2, IpcResponse.Pong) := by
  refine ⟨rfl, ?_, ?_⟩
  · exact (wire_roundtrip ⟨1, IpcRequest.Ping⟩ 2 IpcResponse.Pong rfl).1
  · exact (wire_roundtrip ⟨1, IpcRequest.Ping⟩ 2 IpcResponse.Pong rfl).2

end WebviewIpc
